import Mathlib

/-!
Verification of the vedic-ai-core Panchang engine and its feeders.

The Python source (src/main.py, src/tools/ingest_pdf.py) is embedded
shallowly: Python floats are modelled as exact rationals (ℚ), Python ints
as ℤ, dictionaries and JSON payloads as an inductive tree, and fallible
code as Except/Option.  Each definition transcribes the corresponding
source function; theorems settle the specification claims against them.
-/

namespace VedicCore

/-- Python float modulo with the divisor's sign, exact-arithmetic model
for a positive divisor: x % y = x - y * floor (x / y). -/
def pymod (x y : ℚ) : ℚ := x - y * (⌊x / y⌋ : ℤ)

/-- deg_norm from src/main.py lines 93-98: normalize degrees to [0,360).
The source computes x % 360.0 and then adds 360.0 if the result is
negative; both steps are transcribed. -/
def deg_norm (x : ℚ) : ℚ :=
  let r := pymod x 360
  if r < 0 then r + 360 else r

/-- NAKSHATRA_NAMES table from src/main.py lines 58-62 (27 entries). -/
def NAKSHATRA_NAMES : List String :=
  ["Ashwini", "Bharani", "Krittika", "Rohini", "Mrigashirsha", "Ardra",
   "Punarvasu", "Pushya", "Ashlesha", "Magha", "Purva Phalguni",
   "Uttara Phalguni", "Hasta", "Chitra", "Swati", "Vishakha", "Anuradha",
   "Jyeshtha", "Mula", "Purva Ashadha", "Uttara Ashadha", "Shravana",
   "Dhanishta", "Shatabhisha", "Purva Bhadrapada", "Uttara Bhadrapada",
   "Revati"]

/-- TITHI_NAMES table from src/main.py lines 64-71 (30 entries:
Shukla 1-15 then Krishna 1-15). -/
def TITHI_NAMES : List String :=
  ["Pratipada", "Dvitiya", "Tritiya", "Chaturthi", "Panchami", "Shashthi",
   "Saptami", "Ashtami", "Navami", "Dashami", "Ekadashi", "Dvadashi",
   "Trayodashi", "Chaturdashi", "Purnima",
   "Pratipada", "Dvitiya", "Tritiya", "Chaturthi", "Panchami", "Shashthi",
   "Saptami", "Ashtami", "Navami", "Dashami", "Ekadashi", "Dvadashi",
   "Trayodashi", "Chaturdashi", "Amavasya"]

/-- YOGA_NAMES table from src/main.py lines 73-77 (27 entries). -/
def YOGA_NAMES : List String :=
  ["Vishkumbha", "Priti", "Ayushman", "Saubhagya", "Shobhana", "Atiganda",
   "Sukarman", "Dhriti", "Shoola", "Ganda", "Vriddhi", "Dhruva",
   "Vyaghata", "Harshana", "Vajra", "Siddhi", "Vyatipata", "Variyana",
   "Parigha", "Shiva", "Siddha", "Sadhya", "Shubha", "Shukla", "Brahma",
   "Indra", "Vaidhriti"]

/-- The local 7-entry repeating karana cycle from src/main.py line 174. -/
def karana_repeating : List String :=
  ["Bava", "Balava", "Kaulava", "Taitila", "Garaja", "Vanija", "Vishti"]

/-- Round-half-to-even on rationals, the tie rule of Python's round. -/
def roundHalfEven (x : ℚ) : ℤ :=
  let f : ℤ := ⌊x⌋
  let r := x - (f : ℚ)
  if r < 1 / 2 then f
  else if 1 / 2 < r then f + 1
  else if f % 2 = 0 then f else f + 1

/-- Python round(x, 4): round to 4 decimal digits, ties to even. -/
def round4 (x : ℚ) : ℚ := (roundHalfEven (x * 10000) : ℚ) / 10000

structure TithiInfo where
  index : ℤ
  name : String
  paksha : String
  progress : ℚ
  deriving Repr, DecidableEq

structure NakshatraInfo where
  index : ℤ
  name : String
  pada : ℤ
  progress : ℚ
  deriving Repr, DecidableEq

structure YogaInfo where
  index : ℤ
  name : String
  progress : ℚ
  deriving Repr, DecidableEq

structure KaranaInfo where
  index : ℤ
  name : String
  progress : ℚ
  deriving Repr, DecidableEq

/-- compute_tithi from src/main.py lines 132-139. -/
def compute_tithi (sun_deg moon_deg : ℚ) : TithiInfo :=
  let diff := deg_norm (moon_deg - sun_deg)
  let tithi_index : ℤ := ⌊diff / 12⌋ + 1
  let paksha := if tithi_index ≤ 15 then "Shukla" else "Krishna"
  let name := TITHI_NAMES.getD (tithi_index - 1).toNat ""
  let progress := pymod diff 12 / 12
  ⟨tithi_index, name, paksha, round4 progress⟩

/-- compute_nakshatra from src/main.py lines 141-148. -/
def compute_nakshatra (moon_deg : ℚ) : NakshatraInfo :=
  let seg : ℚ := 13 + 20 / 60
  let idx0 : ℤ := ⌊deg_norm moon_deg / seg⌋
  let name := NAKSHATRA_NAMES.getD idx0.toNat ""
  let within := deg_norm moon_deg - (idx0 : ℚ) * seg
  let pada : ℤ := ⌊within / (seg / 4)⌋ + 1
  let progress := within / seg
  ⟨idx0 + 1, name, pada, round4 progress⟩

/-- compute_yoga from src/main.py lines 150-157. -/
def compute_yoga (sun_deg moon_deg : ℚ) : YogaInfo :=
  let total := deg_norm (sun_deg + moon_deg)
  let seg : ℚ := 13 + 20 / 60
  let idx0 : ℤ := ⌊total / seg⌋
  let name := YOGA_NAMES.getD idx0.toNat ""
  let within := total - (idx0 : ℚ) * seg
  let progress := within / seg
  ⟨idx0 + 1, name, round4 progress⟩

/-- compute_karana from src/main.py lines 159-178. -/
def compute_karana (sun_deg moon_deg : ℚ) : KaranaInfo :=
  let diff := deg_norm (moon_deg - sun_deg)
  let half_tithi : ℤ := ⌊diff / 6⌋ + 1
  let name :=
    if half_tithi = 1 then "Kimstughna"
    else if half_tithi = 58 then "Shakuni"
    else if half_tithi = 59 then "Chatushpada"
    else if half_tithi = 60 then "Naga"
    else karana_repeating.getD ((half_tithi - 2) % 7).toNat ""
  let progress := pymod diff 6 / 6
  ⟨half_tithi, name, round4 progress⟩

/-!
### The floating-point face of deg_norm

pymod and deg_norm above are the exact-rational idealization of the
source's float arithmetic, adequate wherever every involved operation is
IEEE-exact (the boundary and name-rule evaluations below).  The source,
however, runs on binary64 floats, and CPython's float modulo can round
up to the divisor: fmod(-2⁻⁵⁰, 360.0) = -2⁻⁵⁰, and -2⁻⁵⁰ + 360.0 rounds
to exactly 360.0.  The model below captures that: binary64 values are
exact dyadic numbers m · 2 ^ e, and every arithmetic operation computes
the exact result and rounds it to 53 significant bits, round half to
even.  Subnormal underflow and overflow are not modelled; the
evaluations below stay well inside the normal range.
-/

/-- Fuel-bounded bit length of a natural number. -/
def bitLenAux : ℕ → ℕ → ℕ
  | 0, _ => 0
  | fuel + 1, n => if n = 0 then 0 else bitLenAux fuel (n / 2) + 1

/-- Bit length, with fuel covering every number below 2 ^ 1200. -/
def bitLen (n : ℕ) : ℕ := bitLenAux 1200 n

/-- Round the exact dyadic value m · 2 ^ e to 53 significant bits, round
half to even: the binary64 rounding of a real result. -/
def roundDyadic (m e : ℤ) : ℤ × ℤ :=
  if m = 0 then (0, 0)
  else
    let a := m.natAbs
    let s := bitLen a
    if s ≤ 53 then (m, e)
    else
      let k := s - 53
      let q := a / 2 ^ k
      let r := a % 2 ^ k
      let half := 2 ^ (k - 1)
      let q2 :=
        if r < half then q
        else if half < r then q + 1
        else if q % 2 = 0 then q else q + 1
      let sign : ℤ := if m < 0 then -1 else 1
      if q2 = 2 ^ 53 then (sign * 2 ^ 52, e + (k : ℤ) + 1)
      else (sign * (q2 : ℤ), e + (k : ℤ))

/-- Write two dyadic values over their common least exponent. -/
def dyadicAlign (x y : ℤ × ℤ) : ℤ × ℤ × ℤ :=
  let e := min x.2 y.2
  (x.1 * 2 ^ (x.2 - e).toNat, y.1 * 2 ^ (y.2 - e).toNat, e)

/-- binary64 addition: exact sum, then rounding. -/
def fadd (x y : ℤ × ℤ) : ℤ × ℤ :=
  let a := dyadicAlign x y
  roundDyadic (a.1 + a.2.1) a.2.2

/-- binary64 subtraction (float negation is exact). -/
def fsub (x y : ℤ × ℤ) : ℤ × ℤ := fadd x (-y.1, y.2)

/-- C fmod on binary64 values: the exact remainder with the sign of the
dividend (always exactly representable, so no rounding). -/
def ffmod (x y : ℤ × ℤ) : ℤ × ℤ :=
  if y.1 = 0 then (0, 0)
  else
    let a := dyadicAlign x y
    (a.1.tmod a.2.1, a.2.2)

/-- binary64 division: exact quotient with a sticky bit, then rounding. -/
def fdiv (x y : ℤ × ℤ) : ℤ × ℤ :=
  if x.1 = 0 ∨ y.1 = 0 then (0, 0)
  else
    let sign : ℤ := if (x.1 < 0) ≠ (y.1 < 0) then -1 else 1
    let a := x.1.natAbs
    let b := y.1.natAbs
    let sh := 54 + bitLen b
    let q := a * 2 ^ sh / b
    let r := a * 2 ^ sh % b
    let sticky : ℤ := if r = 0 then 0 else 1
    roundDyadic (sign * (2 * (q : ℤ) + sticky)) (x.2 - y.2 - (sh : ℤ) - 1)

/-- math.floor of a binary64 value, as Python's int(floor(x)). -/
def ffloor (x : ℤ × ℤ) : ℤ :=
  if 0 ≤ x.2 then x.1 * 2 ^ x.2.toNat
  else x.1.fdiv (2 ^ (-x.2).toNat)

/-- CPython float modulo (floatobject.c float_rem): fmod, then — when the
nonzero remainder and the divisor have opposite signs — one rounded float
addition of the divisor.  That addition is where the result can round up
to the divisor itself. -/
def pymod_float (x y : ℤ × ℤ) : ℤ × ℤ :=
  let m := ffmod x y
  if m.1 ≠ 0 ∧ ((y.1 < 0) ≠ (m.1 < 0)) then fadd m y else m

/-- deg_norm from src/main.py lines 93-98 over binary64 arithmetic. -/
def deg_norm_float (x : ℤ × ℤ) : ℤ × ℤ :=
  let r := pymod_float x (360, 0)
  if r.1 < 0 then fadd r (360, 0) else r

/-- The tithi index of compute_tithi (src/main.py line 134) over binary64
arithmetic: int(floor(deg_norm(moon - sun) / 12.0)) + 1. -/
def tithi_index_float (sun moon : ℤ × ℤ) : ℤ :=
  ffloor (fdiv (deg_norm_float (fsub moon sun)) (12, 0)) + 1

/-- The half_tithi index of compute_karana (src/main.py line 162) over
binary64 arithmetic: int(floor(deg_norm(moon - sun) / 6.0)) + 1. -/
def half_tithi_float (sun moon : ℤ × ℤ) : ℤ :=
  ffloor (fdiv (deg_norm_float (fsub moon sun)) (6, 0)) + 1

/-- The rational value of a dyadic binary64 number. -/
def dval (d : ℤ × ℤ) : ℚ := (d.1 : ℚ) * (2 : ℚ) ^ d.2

lemma compute_karana_index (s m : ℚ) :
    (compute_karana s m).index = ⌊deg_norm (m - s) / 6⌋ + 1 := rfl

lemma compute_karana_name (s m : ℚ) :
    (compute_karana s m).name =
      (if ⌊deg_norm (m - s) / 6⌋ + 1 = 1 then "Kimstughna"
       else if ⌊deg_norm (m - s) / 6⌋ + 1 = 58 then "Shakuni"
       else if ⌊deg_norm (m - s) / 6⌋ + 1 = 59 then "Chatushpada"
       else if ⌊deg_norm (m - s) / 6⌋ + 1 = 60 then "Naga"
       else karana_repeating.getD
         ((⌊deg_norm (m - s) / 6⌋ + 1 - 2) % 7).toNat "") := rfl

/-! ### Claim theorems: Panchang arithmetic -/

/-- C6 (code-bug evidence): over binary64 arithmetic deg_norm escapes its
documented [0,360) range and is not idempotent — at the negative input
-2⁻⁵⁰ the rounded addition of 360.0 returns exactly 360.0 (value 360,
outside the range), and a second application of deg_norm maps that to
0.0, not back to itself. -/
theorem deg_norm_float_escapes_range :
    dval (-1, -50) < 0 ∧
    deg_norm_float (-1, -50) = (6333186975989760, -44) ∧
    dval (6333186975989760, -44) = 360 ∧
    deg_norm_float (6333186975989760, -44) = (0, -44) ∧
    dval (0, -44) = 0 := by
  refine ⟨?_, by decide, ?_, by decide, by simp [dval]⟩
  · unfold dval
    simp only []
    have h : (0 : ℚ) < (2 : ℚ) ^ (-50 : ℤ) := by positivity
    push_cast
    nlinarith
  · unfold dval
    simp only []
    rw [show ((-44 : ℤ)) = -((44 : ℕ) : ℤ) by norm_num, zpow_neg,
      zpow_natCast, ← div_eq_mul_inv, div_eq_iff (by positivity)]
    norm_num

set_option maxRecDepth 100000 in
/-- C1 (code-bug evidence): over binary64 arithmetic the panchang indices
escape their documented ranges — for sun = 2⁻⁵⁰ and moon = 0.0 the
normalized difference is exactly 360.0, so the tithi index is 31, the
lookup position 30 is out of bounds for the 30-entry TITHI_NAMES table
(the source raises IndexError there), and the karana half_tithi is
61 > 60. -/
theorem tithi_float_index_out_of_bounds :
    tithi_index_float (1, -50) (0, 0) = 31 ∧
    ¬ ((tithi_index_float (1, -50) (0, 0) - 1).toNat <
        TITHI_NAMES.length) ∧
    half_tithi_float (1, -50) (0, 0) = 61 := by
  exact ⟨by decide, by decide, by decide⟩

/-- C4: a moon−sun difference exactly on a 12° multiple belongs to the
tithi that starts there: sun = 0, moon = 12 gives tithi index 2 with
progress 0, not index 1 with progress 1. -/
theorem tithi_boundary_exact :
    (compute_tithi 0 12).index = 2 ∧ (compute_tithi 0 12).progress = 0 := by
  norm_num [compute_tithi, deg_norm, pymod, round4, roundHalfEven]

/-- C5: the karana name follows the special-case table: half_tithi 1 is
Kimstughna, 58/59/60 are Shakuni/Chatushpada/Naga, every half_tithi in
2..57 is the entry at (half_tithi − 2) mod 7 of the 7-entry cycle; in
particular half_tithi 2 gives Bava. -/
theorem karana_name_rules (sun moon : ℚ) :
    ((compute_karana sun moon).index = 1 →
      (compute_karana sun moon).name = "Kimstughna") ∧
    ((compute_karana sun moon).index = 58 →
      (compute_karana sun moon).name = "Shakuni") ∧
    ((compute_karana sun moon).index = 59 →
      (compute_karana sun moon).name = "Chatushpada") ∧
    ((compute_karana sun moon).index = 60 →
      (compute_karana sun moon).name = "Naga") ∧
    (2 ≤ (compute_karana sun moon).index →
      (compute_karana sun moon).index ≤ 57 →
      (compute_karana sun moon).name =
        karana_repeating.getD
          (((compute_karana sun moon).index - 2) % 7).toNat "") ∧
    ((compute_karana sun moon).index = 2 →
      (compute_karana sun moon).name = "Bava") := by
  rw [compute_karana_index, compute_karana_name]
  refine ⟨?_, ?_, ?_, ?_, ?_, ?_⟩
  · intro h; simp [h]
  · intro h; simp [h]
  · intro h; simp [h]
  · intro h; simp [h]
  · intro h2 h57
    rw [if_neg (by omega), if_neg (by omega), if_neg (by omega),
      if_neg (by omega)]
  · intro h
    rw [if_neg (by omega), if_neg (by omega), if_neg (by omega),
      if_neg (by omega)]
    rw [h]
    norm_num [karana_repeating]

/-- Witness for karana_name_rules: each branch is exercised at a concrete
pair of longitudes (half_tithi 1, 2 and 60). -/
theorem karana_name_rules_witness :
    (compute_karana 0 0).name = "Kimstughna" ∧
    (compute_karana 0 6).name = "Bava" ∧
    (compute_karana 0 354).name = "Naga" := by
  refine ⟨(karana_name_rules 0 0).1 ?_,
    (karana_name_rules 0 6).2.2.2.2.2 ?_,
    (karana_name_rules 0 354).2.2.2.1 ?_⟩ <;>
    norm_num [compute_karana_index, deg_norm, pymod]

/-! ### The external JSON payload and the longitude extractors -/

/-- JSON-like values of the external ephemeris payload: the shapes Python
json.loads can produce. -/
inductive Json where
  | null
  | boolean (b : Bool)
  | num (q : ℚ)
  | str (s : String)
  | obj (fields : List (String × Json))
  | arr (items : List Json)
  deriving Repr, Inhabited

/-- Python dict.get on an embedded mapping (keys are unique, first
binding wins). -/
def lookupField : List (String × Json) → String → Option Json
  | [], _ => none
  | (k, v) :: rest, key => if k = key then some v else lookupField rest key

/-- Python str.split on a one-character separator. -/
def splitChar (sep : Char) : List Char → List (List Char)
  | [] => [[]]
  | c :: rest =>
    let r := splitChar sep rest
    if c = sep then [] :: r
    else
      match r with
      | h :: t => (c :: h) :: t
      | [] => [[c]]

/-- Python str.strip: remove leading and trailing whitespace. -/
def pyStrip (cs : List Char) : List Char :=
  ((cs.dropWhile Char.isWhitespace).reverse.dropWhile Char.isWhitespace).reverse

/-- Numeric value of a list of decimal digit characters. -/
def digitsToNat (ds : List Char) : ℕ :=
  ds.foldl (fun a c => a * 10 + (c.toNat - 48)) 0

/-- Strip factors of ten from a decimal mantissa into the exponent,
normalizing the exact decimal value m · 10 ^ e of a parsed float. -/
def normDecAux : ℕ → ℤ → ℤ → ℤ × ℤ
  | 0, m, e => (m, e)
  | fuel + 1, m, e =>
    if m ≠ 0 ∧ m % 10 = 0 then normDecAux fuel (m / 10) (e + 1)
    else (m, e)

/-- Decimal core of Python float(string) on an already-stripped string:
optional sign, digits with optional fraction, optional exponent; the
result is the exact decimal value as a normalized mantissa/exponent pair.
Special spellings (inf, nan, underscore separators) are not modelled. -/
def parsePyFloat? (s : String) : Option (ℤ × ℤ) :=
  let cs := s.toList
  let sgn : ℤ × List Char :=
    match cs with
    | '+' :: rest => (1, rest)
    | '-' :: rest => (-1, rest)
    | _ => (1, cs)
  let intPart := sgn.2.takeWhile Char.isDigit
  let afterInt := sgn.2.dropWhile Char.isDigit
  let frac : List Char × List Char :=
    match afterInt with
    | '.' :: rest => (rest.takeWhile Char.isDigit, rest.dropWhile Char.isDigit)
    | _ => ([], afterInt)
  if intPart.isEmpty ∧ frac.1.isEmpty then none
  else
    let mant : ℤ := sgn.1 * (digitsToNat (intPart ++ frac.1) : ℤ)
    let scale : ℤ := -(frac.1.length : ℤ)
    match frac.2 with
    | [] =>
      if mant = 0 then some (0, 0) else some (normDecAux 400 mant scale)
    | e :: rest =>
      if e = 'e' ∨ e = 'E' then
        let esgn : ℤ × List Char :=
          match rest with
          | '+' :: r => (1, r)
          | '-' :: r => (-1, r)
          | _ => (1, rest)
        let eds := esgn.2.takeWhile Char.isDigit
        let tail := esgn.2.dropWhile Char.isDigit
        if eds.isEmpty ∨ ¬tail.isEmpty then none
        else if mant = 0 then some (0, 0)
        else
          some (normDecAux 400 mant (scale + esgn.1 * (digitsToNat eds : ℤ)))
      else none

/-- The rational value of a parsed float. -/
def decToRat (d : ℤ × ℤ) : ℚ := (d.1 : ℚ) * (10 : ℚ) ^ d.2

/-- Python float(string) as a rational value. -/
def parseFloat? (s : String) : Option ℚ := (parsePyFloat? s).map decToRat

/-- Python float(v) on an embedded JSON value, with the exception made
explicit: raises on null, mappings, sequences and non-numeric strings. -/
def pyFloatE : Json → Except String ℚ
  | Json.num q => Except.ok q
  | Json.boolean b => Except.ok (if b then 1 else 0)
  | Json.str s =>
    match parseFloat? s with
    | some q => Except.ok q
    | none => Except.error "ValueError: could not convert string to float"
  | _ => Except.error "TypeError: float() argument"

/-- float(v) wrapped in the source's try/except: a failed coercion
becomes None. -/
def pyFloat? (v : Json) : Option ℚ := (pyFloatE v).toOption

/-- Python value.get(key), with the exception made explicit: raises
AttributeError when the receiver is not a mapping. -/
def jsonGet (x : Json) (k : String) : Except String (Option Json) :=
  match x with
  | Json.obj fs => Except.ok (lookupField fs k)
  | _ => Except.error "AttributeError: object has no attribute get"

mutual

/-- iter_objects from extract_sun_moon_longitudes (src/main.py lines
466-473): preorder enumeration of every mapping node — the node itself,
then the nodes inside its values — descending through sequences. -/
def iter_objects : Json → List (List (String × Json))
  | Json.obj fs => fs :: iterObjectsFields fs
  | Json.arr xs => iterObjectsItems xs
  | _ => []

def iterObjectsFields : List (String × Json) → List (List (String × Json))
  | [] => []
  | (_, v) :: rest => iter_objects v ++ iterObjectsFields rest

def iterObjectsItems : List Json → List (List (String × Json))
  | [] => []
  | x :: rest => iter_objects x ++ iterObjectsItems rest

end

mutual

/-- find_total_degrees (src/main.py lines 475-491 and 556-572): first
value under a "TotalDegrees" key in a depth-first walk; a key hit whose
value fails float coercion ends the walk of that node with None. -/
def find_total_degrees : Json → Option ℚ
  | Json.obj fs => findTotalDegreesFields fs
  | Json.arr xs => findTotalDegreesItems xs
  | _ => none

def findTotalDegreesFields : List (String × Json) → Option ℚ
  | [] => none
  | (k, v) :: rest =>
    if k = "TotalDegrees" then pyFloat? v
    else
      match find_total_degrees v with
      | some q => some q
      | none => findTotalDegreesFields rest

def findTotalDegreesItems : List Json → Option ℚ
  | [] => none
  | x :: rest =>
    match find_total_degrees x with
    | some q => some q
    | none => findTotalDegreesItems rest

end

/-- get_nirayana_total (src/main.py lines 545-554): read
PlanetNirayanaLongitude.TotalDegrees from a per-planet mapping.  The
attribute access goes through jsonGet (it cannot fail here: the source
checks isinstance first), and the source's try/except around the float
coercion is the toOption. -/
def get_nirayana_total (x : Json) : Except String (Option ℚ) :=
  match x with
  | Json.obj _ => do
    let lngO ← jsonGet x "PlanetNirayanaLongitude"
    match lngO with
    | some (Json.obj lfs) =>
      match lookupField lfs "TotalDegrees" with
      | some w => pure ((pyFloatE w).toOption)
      | none => pure none
    | _ => pure none
  | _ => pure none

/-- The fixed planet-name set of extract_planet_longitudes
(src/main.py line 575). -/
def PLANET_NAMES : List String :=
  ["Sun", "Moon", "Mars", "Mercury", "Jupiter", "Venus", "Saturn",
   "Rahu", "Ketu"]

/-- One AllPlanetData entry of extract_planet_longitudes (src/main.py
lines 582-591): per planet name, record the first value found. -/
def processEntry (acc : List (String × ℚ)) (efs : List (String × Json)) :
    Except String (List (String × ℚ)) :=
  PLANET_NAMES.foldlM
    (fun acc name =>
      match lookupField efs name with
      | some v =>
        if (acc.lookup name).isSome then pure acc
        else do
          let val0 ← get_nirayana_total v
          let val :=
            match val0 with
            | some q => some q
            | none => find_total_degrees v
          match val with
          | some q => pure (acc ++ [(name, q)])
          | none => pure acc
      | none => pure acc)
    acc

/-- extract_planet_longitudes (src/main.py lines 544-593): read the nine
planet longitudes through the Payload → AllPlanetData fast path; the
result is an Except so that any exception the Python could raise would be
visible as an error value. -/
def extract_planet_longitudes (j : Json) :
    Except String (List (String × ℚ)) :=
  match j with
  | Json.obj _ => do
    let payloadO ← jsonGet j "Payload"
    match payloadO with
    | some (Json.obj pfs) => do
      let apO ← jsonGet (Json.obj pfs) "AllPlanetData"
      match apO with
      | some (Json.arr entries) =>
        entries.foldlM
          (fun acc e =>
            match e with
            | Json.obj efs => processEntry acc efs
            | _ => pure acc)
          []
      | _ => pure []
    | _ => pure []
  | _ => pure []

/-- Whether the payload has the fast-path shape: a mapping whose Payload
key holds a mapping whose AllPlanetData key holds a sequence. -/
def hasFastShape (j : Json) : Bool :=
  match j with
  | Json.obj fs =>
    match lookupField fs "Payload" with
    | some (Json.obj pfs) =>
      match lookupField pfs "AllPlanetData" with
      | some (Json.arr _) => true
      | _ => false
    | _ => false
  | _ => false

/-- Python truthiness of a JSON value. -/
def Json.truthy : Json → Bool
  | Json.null => false
  | Json.boolean b => b
  | Json.num q => if q = 0 then false else true
  | Json.str s => if s = "" then false else true
  | Json.obj fs => if fs.isEmpty then false else true
  | Json.arr xs => if xs.isEmpty then false else true

/-- Fast path of extract_sun_moon_longitudes (src/main.py lines 497-508):
one AllPlanetData entry; an entry with the key can overwrite a pending
None with another None. -/
def sunMoonFastStep (p : Option ℚ × Option ℚ) (e : Json) :
    Option ℚ × Option ℚ :=
  match e with
  | Json.obj efs =>
    let s :=
      match lookupField efs "Sun", p.1 with
      | some v, none => find_total_degrees v
      | _, _ => p.1
    let m :=
      match lookupField efs "Moon", p.2 with
      | some v, none => find_total_degrees v
      | _, _ => p.2
    (s, m)
  | _ => p

/-- Fast path of extract_sun_moon_longitudes over the whole payload. -/
def sunMoonFast (j : Json) : Option ℚ × Option ℚ :=
  match j with
  | Json.obj fs =>
    match lookupField fs "Payload" with
    | some (Json.obj pfs) =>
      match lookupField pfs "AllPlanetData" with
      | some (Json.arr entries) => entries.foldl sunMoonFastStep (none, none)
      | _ => (none, none)
    | _ => (none, none)
  | _ => (none, none)

/-- PlanetName tier of extract_sun_moon_longitudes (src/main.py lines
510-524), one mapping node: a truthy non-mapping PlanetNirayanaLongitude
raises AttributeError, a later match overwrites an earlier one. -/
def tier1Step (p : Option ℚ × Option ℚ) (fs : List (String × Json)) :
    Except String (Option ℚ × Option ℚ) :=
  match lookupField fs "PlanetName" with
  | some (Json.obj pnfs) =>
    match lookupField pnfs "Name" with
    | some (Json.str n) =>
      if n = "Sun" ∨ n = "Moon" then
        let lngRaw := (lookupField fs "PlanetNirayanaLongitude").getD Json.null
        let lng := if lngRaw.truthy then lngRaw else Json.obj []
        match lng with
        | Json.obj lfs =>
          let td := lookupField lfs "TotalDegrees"
          let val :=
            match td with
            | some t => (pyFloatE t).toOption
            | none => none
          Except.ok
            (if n = "Sun" ∧ val.isSome then val else p.1,
             if n = "Moon" ∧ val.isSome then val else p.2)
        | _ => Except.error "AttributeError: object has no attribute get"
      else Except.ok p
    | _ => Except.ok p
  | _ => Except.ok p

/-- PlanetName tier over every mapping node of the payload. -/
def tier1 (p : Option ℚ × Option ℚ) (j : Json) :
    Except String (Option ℚ × Option ℚ) :=
  (iter_objects j).foldlM tier1Step p

/-- Fallback tier of extract_sun_moon_longitudes (src/main.py lines
527-537), one mapping node: fill a still-missing Sun or Moon from a
planet-name key with a recoverable TotalDegrees. -/
def tier2Step (p : Option ℚ × Option ℚ) (fs : List (String × Json)) :
    Option ℚ × Option ℚ :=
  let p1 :=
    match lookupField fs "Sun" with
    | some v =>
      match p.1, find_total_degrees v with
      | none, some q => (some q, p.2)
      | _, _ => p
    | none => p
  match lookupField fs "Moon" with
  | some v =>
    match p1.2, find_total_degrees v with
    | none, some q => (p1.1, some q)
    | _, _ => p1
  | none => p1

/-- Fallback tier over every mapping node of the payload. -/
def tier2 (p : Option ℚ × Option ℚ) (j : Json) : Option ℚ × Option ℚ :=
  (iter_objects j).foldl tier2Step p

/-- extract_sun_moon_longitudes (src/main.py lines 460-541): fast path,
PlanetName tier, then — if Sun or Moon is still missing — the fallback
tier; raises when either longitude is still absent. -/
def extract_sun_moon_longitudes (j : Json) : Except String (ℚ × ℚ) := do
  let p0 := sunMoonFast j
  let p1 ← tier1 p0 j
  let p2 := if p1.1 = none ∨ p1.2 = none then tier2 p1 j else p1
  match p2 with
  | (some s, some m) => Except.ok (s, m)
  | _ =>
    Except.error
      "Could not extract Sun/Moon Nirayana longitudes from VedAstro response"

/-- First value the exhaustive fallback can recover for a planet name: the
first mapping node, in iter_objects order, holding the name as a key with
a recoverable TotalDegrees below it. -/
def fallbackFirst (name : String) (j : Json) : Option ℚ :=
  (iter_objects j).findSome?
    (fun fs => (lookupField fs name).bind find_total_degrees)

/-- A payload with no recognized planet structures. -/
def noPlanetsPayload : Json :=
  Json.obj [("Status", Json.str "Pass"),
            ("foo", Json.arr [Json.num 1, Json.str "x"])]

/-- A fast-path payload whose Sun degree field is a non-numeric string and
whose Moon degree field is numeric. -/
def coercionFailPayload : Json :=
  Json.obj [("Payload", Json.obj [("AllPlanetData", Json.arr
    [Json.obj [("Sun", Json.obj [("TotalDegrees", Json.str "abc")])],
     Json.obj [("Moon", Json.obj [("TotalDegrees", Json.num 100)])]])])]

/-- A payload holding a Mars longitude outside the fast-path shape. -/
def fallbackClaimPayload : Json :=
  Json.obj [("Mars", Json.obj [("PlanetNirayanaLongitude",
    Json.obj [("TotalDegrees", Json.num 123)])])]

/-- A payload holding a Sun longitude nested inside a sequence, outside
the fast-path shape. -/
def nestedSunPayload : Json :=
  Json.arr [Json.obj [("Sun", Json.obj [("TotalDegrees", Json.num 100)])]]

/-! ### Lemmas on the extractors -/

lemma exceptBind_ok {ε α β : Type} (a : α) (f : α → Except ε β) :
    (Except.ok a >>= f : Except ε β) = f a := rfl

lemma foldlM_ex {α β : Type} {g : β → α → Except String β}
    (h : ∀ b a, ∃ c, g b a = Except.ok c) :
    ∀ (l : List α) (b : β), ∃ c, l.foldlM g b = Except.ok c := by
  intro l
  induction l with
  | nil => intro b; exact ⟨b, rfl⟩
  | cons a as ih =>
    intro b
    obtain ⟨c, hc⟩ := h b a
    rw [List.foldlM_cons, hc, exceptBind_ok]
    exact ih c

lemma get_nirayana_total_ex (x : Json) :
    ∃ o, get_nirayana_total x = Except.ok o := by
  cases x with
  | obj fs =>
    simp only [get_nirayana_total, jsonGet, exceptBind_ok]
    split
    · split
      · exact ⟨_, rfl⟩
      · exact ⟨_, rfl⟩
    · exact ⟨_, rfl⟩
  | null => exact ⟨_, rfl⟩
  | boolean b => exact ⟨_, rfl⟩
  | num q => exact ⟨_, rfl⟩
  | str s => exact ⟨_, rfl⟩
  | arr xs => exact ⟨_, rfl⟩

lemma processEntry_ex (acc : List (String × ℚ)) (efs : List (String × Json)) :
    ∃ m, processEntry acc efs = Except.ok m := by
  unfold processEntry
  refine foldlM_ex ?_ PLANET_NAMES acc
  intro b name
  cases hv : lookupField efs name with
  | none => exact ⟨b, rfl⟩
  | some v =>
    by_cases hb : (b.lookup name).isSome
    · simp only [hb, if_true]
      exact ⟨b, rfl⟩
    · simp only [hb, if_false]
      obtain ⟨o, ho⟩ := get_nirayana_total_ex v
      rw [ho, exceptBind_ok]
      cases o with
      | some q => exact ⟨_, rfl⟩
      | none => cases find_total_degrees v <;> exact ⟨_, rfl⟩

lemma extract_planet_longitudes_ex (j : Json) :
    ∃ m, extract_planet_longitudes j = Except.ok m := by
  cases j with
  | obj fs =>
    simp only [extract_planet_longitudes, jsonGet, exceptBind_ok]
    cases hp : lookupField fs "Payload" with
    | none => exact ⟨_, rfl⟩
    | some payload =>
      cases payload with
      | obj pfs =>
        simp only []
        cases ha : lookupField pfs "AllPlanetData" with
        | none => exact ⟨_, rfl⟩
        | some ap =>
          cases ap <;> try exact ⟨_, rfl⟩
          rename_i entries
          refine foldlM_ex ?_ entries []
          intro b e
          cases e <;> try exact ⟨b, rfl⟩
          exact processEntry_ex b _
      | null => exact ⟨_, rfl⟩
      | boolean b => exact ⟨_, rfl⟩
      | num q => exact ⟨_, rfl⟩
      | str s => exact ⟨_, rfl⟩
      | arr xs => exact ⟨_, rfl⟩
  | null => exact ⟨_, rfl⟩
  | boolean b => exact ⟨_, rfl⟩
  | num q => exact ⟨_, rfl⟩
  | str s => exact ⟨_, rfl⟩
  | arr xs => exact ⟨_, rfl⟩

lemma tier2Step_eq (p : Option ℚ × Option ℚ) (fs : List (String × Json)) :
    tier2Step p fs =
      (p.1 <|> (lookupField fs "Sun").bind find_total_degrees,
       p.2 <|> (lookupField fs "Moon").bind find_total_degrees) := by
  obtain ⟨p1, p2⟩ := p
  cases hs : lookupField fs "Sun" with
  | none =>
    cases hm : lookupField fs "Moon" with
    | none => cases p1 <;> cases p2 <;> simp [tier2Step, hs, hm]
    | some w =>
      cases hfw : find_total_degrees w <;> cases p1 <;> cases p2 <;>
        simp [tier2Step, hs, hm, hfw]
  | some v =>
    cases hm : lookupField fs "Moon" with
    | none =>
      cases hfv : find_total_degrees v <;> cases p1 <;> cases p2 <;>
        simp [tier2Step, hs, hm, hfv]
    | some w =>
      cases hfv : find_total_degrees v <;> cases hfw : find_total_degrees w <;>
        cases p1 <;> cases p2 <;>
        simp [tier2Step, hs, hm, hfv, hfw]

lemma foldl_tier2_eq (L : List (List (String × Json))) :
    ∀ p : Option ℚ × Option ℚ,
      L.foldl tier2Step p =
        (p.1 <|> L.findSome?
          (fun fs => (lookupField fs "Sun").bind find_total_degrees),
         p.2 <|> L.findSome?
          (fun fs => (lookupField fs "Moon").bind find_total_degrees)) := by
  induction L with
  | nil => intro p; simp
  | cons fs L ih =>
    intro p
    rw [List.foldl_cons, ih, tier2Step_eq]
    obtain ⟨p1, p2⟩ := p
    cases p1 <;> cases p2 <;> simp [List.findSome?_cons] <;>
      cases hfs : (lookupField fs "Sun").bind find_total_degrees <;>
      cases hfm : (lookupField fs "Moon").bind find_total_degrees <;>
      simp [hfs, hfm]

/-! ### Claim theorems: extractors -/

/-- C2 counterexample: fallbackClaimPayload holds a Mars node with a
recoverable numeric degree field, the fast path resolves nothing, yet
extract_planet_longitudes returns the empty mapping — no exhaustive
fallback runs for the nine-planet set. -/
theorem planet_fallback_cex :
    find_total_degrees
        (Json.obj [("PlanetNirayanaLongitude",
          Json.obj [("TotalDegrees", Json.num 123)])]) = some 123 ∧
    extract_planet_longitudes fallbackClaimPayload = Except.ok [] :=
  ⟨rfl, rfl⟩

/-- C2 amended: the nine-planet extractor has no fallback — any payload
without the fast-path shape yields the empty mapping — while the
exhaustive first-match-wins fallback walk exists only in the Sun/Moon
extractor, whose fallback tier fills a still-missing planet with the
first recoverable value in walk order. -/
theorem planet_fallback_only_sun_moon (j : Json) :
    (hasFastShape j = false → extract_planet_longitudes j = Except.ok []) ∧
    (∀ p : Option ℚ × Option ℚ,
      tier2 p j =
        (p.1 <|> fallbackFirst "Sun" j, p.2 <|> fallbackFirst "Moon" j)) := by
  constructor
  · intro h
    unfold hasFastShape at h
    cases j <;> try rfl
    rename_i fs
    simp only [extract_planet_longitudes, jsonGet, exceptBind_ok]
    cases hp : lookupField fs "Payload" <;> simp only [hp] at h ⊢ <;> try rfl
    rename_i payload
    cases payload <;> try rfl
    rename_i pfs
    simp only [jsonGet, exceptBind_ok]
    cases ha : lookupField pfs "AllPlanetData" <;> simp only [ha] at h ⊢ <;>
      try rfl
    rename_i ap
    cases ap <;> try rfl
    simp at h
  · intro p
    unfold tier2 fallbackFirst
    exact foldl_tier2_eq (iter_objects j) p

/-- Witness for planet_fallback_only_sun_moon at nestedSunPayload: the
nine-planet extractor finds nothing, while the Sun/Moon fallback tier
recovers the nested Sun value. -/
theorem planet_fallback_only_sun_moon_witness :
    extract_planet_longitudes nestedSunPayload = Except.ok [] ∧
    tier2 (none, none) nestedSunPayload = (some 100, none) := by
  have h := planet_fallback_only_sun_moon nestedSunPayload
  refine ⟨h.1 rfl, ?_⟩
  rw [h.2 (none, none)]
  rfl

/-- C7: the nine-planet extractor never raises — its exception-explicit
transcription returns Except.ok on every payload — a payload with no
recognized planet structures yields the empty mapping, and a per-node
coercion failure (the non-numeric Sun degree of coercionFailPayload) is
treated as not found rather than propagated. -/
theorem extractor_never_raises :
    (∀ j : Json, ∃ m, extract_planet_longitudes j = Except.ok m) ∧
    extract_planet_longitudes noPlanetsPayload = Except.ok [] ∧
    extract_planet_longitudes coercionFailPayload =
      Except.ok [("Moon", 100)] :=
  ⟨extract_planet_longitudes_ex, rfl, rfl⟩

/-! ### Location resolution -/

/-- Decimal digits of a natural number left-padded with zeros to width
k. -/
def natToPadded (n k : ℕ) : String :=
  let s := n.repr
  String.mk (List.replicate (k - s.length) '0') ++ s

/-- Core of Python float formatting (f-string interpolation of a float)
on the normalized decimal value: integral values print with a trailing
.0, other values print their shortest exact decimal form; exponent
notation for very large or very small magnitudes is not modelled. -/
def pyFloatRepr (d : ℤ × ℤ) : String :=
  let sign := if d.1 < 0 then "-" else ""
  let a := d.1.natAbs
  if d.1 = 0 then "0.0"
  else if 0 ≤ d.2 then sign ++ (a * 10 ^ d.2.toNat).repr ++ ".0"
  else
    let k := (-d.2).toNat
    let ip := a / 10 ^ k
    let fp := a % 10 ^ k
    sign ++ ip.repr ++ "." ++ natToPadded fp k

/-- _looks_like_lat_lon (src/main.py lines 370-379): split on the comma,
strip each part, require exactly two float-parsing parts, and re-format
the parsed float values as the interpolated string. -/
def looks_like_lat_lon (place : String) : Option String :=
  match (splitChar ',' place.toList).map pyStrip with
  | [a, b] =>
    match parsePyFloat? (String.mk a), parsePyFloat? (String.mk b) with
    | some lat, some lon =>
      some (pyFloatRepr lat ++ "," ++ pyFloatRepr lon)
    | _, _ => none
  | _ => none

/-- resolve_location (src/main.py lines 415-419) with the geocoding
collaborator abstracted as an oracle; the second component counts
outbound geocoding lookups (geocode_place performs exactly one HTTP
request per call).  The source tests the candidate string for
truthiness, so the empty string would fall through to geocoding. -/
def resolve_location (geocode : String → Except String String)
    (place : String) : Except String String × ℕ :=
  match looks_like_lat_lon place with
  | some s => if s = "" then (geocode place, 1) else (Except.ok s, 0)
  | none => (geocode place, 1)

/-- A geocoding oracle that always fails, to make absence of lookups
observable. -/
def noGeocode : String → Except String String :=
  fun _ => Except.error "GeocodeError"

/-! ### Time-string formatting -/

/-- build_vedastro_time_string (src/main.py lines 449-458): strip-split
the date on dashes into exactly year, month, day (any other count is a
422 format error), require non-empty time and timezone, and compose the
query microformat string. -/
def build_vedastro_time_string (date time timezone : String) :
    Except String String :=
  match (splitChar '-' date.toList).map pyStrip with
  | [year, month, day] =>
    if time = "" then Except.error "time is required"
    else if timezone = "" then Except.error "timezone is required"
    else
      Except.ok
        (time ++ "/" ++ String.mk day ++ "/" ++ String.mk month ++ "/" ++
          String.mk year ++ "/" ++ timezone)
  | _ => Except.error "date must be YYYY-MM-DD"

/-! ### Candidate-URL trial -/

/-- Loop of fetch_vedastro_candidates (src/main.py lines 212-221): try
each URL in order, return the first success, remember only the most
recent failure. -/
def fetchCandidatesAux {α : Type} (fetch : String → Except String α) :
    Option String → List String → Except String α
  | last_error, [] =>
    match last_error with
    | some e => Except.error e
    | none => Except.error "VedAstro error: no candidate URL succeeded"
  | _, u :: rest =>
    match fetch u with
    | Except.ok d => Except.ok d
    | Except.error e => fetchCandidatesAux fetch (some e) rest

/-- fetch_vedastro_candidates with the HTTP fetch abstracted as an
oracle from URL to outcome. -/
def fetch_vedastro_candidates {α : Type} (fetch : String → Except String α)
    (urls : List String) : Except String α :=
  fetchCandidatesAux fetch none urls

/-- A fetch oracle on which every URL fails, with distinct diagnostics. -/
def failBothFetch : String → Except String ℚ :=
  fun u =>
    if u = "u1" then Except.error "error from u1"
    else Except.error "error from u2"

/-- A fetch oracle succeeding only on the URL "good". -/
def goodSecondFetch : String → Except String ℚ :=
  fun u => if u = "good" then Except.ok 7 else Except.error ("fail " ++ u)

/-! ### Text chunking -/

/-- Loop body of chunk_text (src/main.py lines 117-130 and
src/tools/ingest_pdf.py lines 17-30), fuel-bounded: none means the fuel
ran out with the loop still running. -/
def chunkLoop (text : List Char) (cs ov : ℤ) :
    ℕ → ℤ → List String → Option (List String)
  | 0, _, _ => none
  | fuel + 1, start, acc =>
    if start < (text.length : ℤ) then
      let e : ℤ := min (start + cs) (text.length : ℤ)
      let chunk := String.mk (pyStrip ((text.drop start.toNat).take
        (e - start).toNat))
      let acc' := if chunk = "" then acc else acc ++ [chunk]
      let s1 : ℤ := e - ov
      let s2 : ℤ := if s1 < 0 then 0 else s1
      if s2 ≥ (text.length : ℤ) then some acc'
      else chunkLoop text cs ov fuel s2 acc'
    else some acc

/-- chunk_text with its entry guards (both copies in the repository are
identical): 422 errors outside 0 < chunk_size and 0 ≤ overlap <
chunk_size, then the fuel-bounded while loop from start = 0. -/
def chunk_text (text : String) (chunk_size overlap : ℤ) (fuel : ℕ) :
    Except String (Option (List String)) :=
  if chunk_size ≤ 0 then Except.error "chunk_size must be > 0"
  else if overlap < 0 then Except.error "overlap must be >= 0"
  else if chunk_size ≤ overlap then
    Except.error "overlap must be smaller than chunk_size"
  else Except.ok (chunkLoop text.toList chunk_size overlap fuel 0 [])

/-! ### Lemmas on the resolver, the formatter, the candidate loop and
the chunker -/

lemma append_comma_append_ne_empty (x y : String) : x ++ "," ++ y ≠ "" := by
  obtain ⟨xd⟩ := x
  obtain ⟨yd⟩ := y
  intro hc
  have hd : ((xd ++ [',']) ++ yd) = [] := congrArg String.data hc
  simp at hd

lemma looks_like_lat_lon_ne_empty (place s : String)
    (h : looks_like_lat_lon place = some s) : s ≠ "" := by
  unfold looks_like_lat_lon at h
  split at h
  · split at h
    · rename_i lat lon _ _
      injection h with h
      rw [← h]
      exact append_comma_append_ne_empty _ _
    · exact absurd h (by simp)
  · exact absurd h (by simp)

lemma fetchCandidatesAux_ok {α : Type} (fetch : String → Except String α) :
    ∀ (us₁ : List String) (le : Option String) (u : String)
      (us₂ : List String),
      (∀ v ∈ us₁, ∃ e, fetch v = Except.error e) →
      (∃ d, fetch u = Except.ok d) →
      fetchCandidatesAux fetch le (us₁ ++ u :: us₂) = fetch u := by
  intro us₁
  induction us₁ with
  | nil =>
    intro le u us₂ _ hok
    obtain ⟨d, hd⟩ := hok
    simp only [List.nil_append, fetchCandidatesAux, hd]
  | cons v t ih =>
    intro le u us₂ hfail hok
    obtain ⟨e, he⟩ := hfail v (List.mem_cons_self v t)
    simp only [List.cons_append, fetchCandidatesAux, he]
    exact ih (some e) u us₂ (fun w hw => hfail w (List.mem_cons_of_mem _ hw))
      hok

lemma fetchCandidatesAux_err {α : Type} (fetch : String → Except String α) :
    ∀ (us : List String) (le : Option String) (h : us ≠ []),
      (∀ v ∈ us, ∃ e, fetch v = Except.error e) →
      fetchCandidatesAux fetch le us = fetch (us.getLast h) := by
  intro us
  induction us with
  | nil => intro le h _; exact absurd rfl h
  | cons v t ih =>
    intro le h hfail
    obtain ⟨e, he⟩ := hfail v (List.mem_cons_self v t)
    cases t with
    | nil =>
      simp only [fetchCandidatesAux, he, List.getLast]
    | cons w t2 =>
      have hne : w :: t2 ≠ [] := by simp
      rw [List.getLast_cons hne]
      simp only [fetchCandidatesAux, he]
      exact ih (some e) hne
        (fun x hx => hfail x (List.mem_cons_of_mem _ hx))

lemma chunkLoop_hello (fuel : ℕ) :
    ∀ acc, chunkLoop "hello".toList 1200 150 fuel 0 acc = none := by
  induction fuel with
  | zero => intro acc; rfl
  | succ n ih =>
    intro acc
    have hstep : chunkLoop "hello".toList 1200 150 (n + 1) 0 acc =
        chunkLoop "hello".toList 1200 150 n 0 (acc ++ ["hello"]) := rfl
    rw [hstep]
    exact ih (acc ++ ["hello"])

/-! ### Claim theorems: resolver, formatter, candidates, chunker -/

/-- C3 counterexample: the input "48,2" parses as exactly two
comma-separated floats, and resolve_location performs no geocoding call,
but it returns the re-formatted string "48.0,2.0", not the input
unchanged. -/
theorem resolve_location_cex :
    looks_like_lat_lon "48,2" = some "48.0,2.0" ∧
    resolve_location noGeocode "48,2" = (Except.ok "48.0,2.0", 0) ∧
    ("48.0,2.0" : String) ≠ "48,2" :=
  ⟨rfl, rfl, by decide⟩

/-- C3 amended: on an input that parses as exactly two comma-separated
floats, resolve_location returns the canonical float re-formatting of the
pair — equal to the input only when the input is already canonical — and
performs no geocoding lookup; on any other input it performs exactly one
geocoding lookup and returns its outcome. -/
theorem resolve_location_reformats (g : String → Except String String)
    (place : String) :
    (∀ s, looks_like_lat_lon place = some s →
      resolve_location g place = (Except.ok s, 0)) ∧
    (looks_like_lat_lon place = none →
      resolve_location g place = (g place, 1)) := by
  constructor
  · intro s hs
    unfold resolve_location
    rw [hs]
    simp only []
    rw [if_neg (looks_like_lat_lon_ne_empty place s hs)]
  · intro h
    unfold resolve_location
    rw [h]

/-- Witness for resolve_location_reformats: a canonical coordinate pair
passes through with zero lookups, a place name triggers exactly one. -/
theorem resolve_location_reformats_witness :
    resolve_location noGeocode "48.85,2.35" = (Except.ok "48.85,2.35", 0) ∧
    resolve_location noGeocode "Paris" = (Except.error "GeocodeError", 1) := by
  have h1 := (resolve_location_reformats noGeocode "48.85,2.35").1
    "48.85,2.35" rfl
  have h2 := (resolve_location_reformats noGeocode "Paris").2 rfl
  refine ⟨h1, ?_⟩
  rw [h2]
  rfl

/-- C8: build_vedastro_time_string raises the date format error whenever
the dash-split of the date does not have exactly three components; when
it does (and time and timezone are non-empty, the preconditions the
source enforces first) it returns the composite
time/day/month/year/timezone string; in particular 2025-02-04, 00:12,
+01:00 gives 00:12/04/02/2025/+01:00. -/
theorem build_time_string_spec (date time timezone : String) :
    ((splitChar '-' date.toList).length ≠ 3 →
      build_vedastro_time_string date time timezone =
        Except.error "date must be YYYY-MM-DD") ∧
    (∀ y m d, (splitChar '-' date.toList).map pyStrip = [y, m, d] →
      time ≠ "" → timezone ≠ "" →
      build_vedastro_time_string date time timezone =
        Except.ok (time ++ "/" ++ String.mk d ++ "/" ++ String.mk m ++ "/" ++
          String.mk y ++ "/" ++ timezone)) ∧
    build_vedastro_time_string "2025-02-04" "00:12" "+01:00" =
      Except.ok "00:12/04/02/2025/+01:00" := by
  refine ⟨?_, ?_, rfl⟩
  · intro h
    have h2 : ((splitChar '-' date.toList).map pyStrip).length ≠ 3 := by
      rw [List.length_map]
      exact h
    unfold build_vedastro_time_string
    rcases hL : (splitChar '-' date.toList).map pyStrip with
      _ | ⟨a, _ | ⟨b, _ | ⟨c, _ | ⟨d4, t⟩⟩⟩⟩ <;>
      (rw [hL] at h2
       try rfl
       try simp at h2)
  · intro y m d heq h1 h2
    unfold build_vedastro_time_string
    rw [heq]
    simp only []
    rw [if_neg h1, if_neg h2]

/-- Witness for build_time_string_spec: a malformed date raises the
format error, and the documented example composes as specified. -/
theorem build_time_string_spec_witness :
    build_vedastro_time_string "2025" "00:12" "+01:00" =
      Except.error "date must be YYYY-MM-DD" ∧
    build_vedastro_time_string "2025-02-04" "00:12" "+01:00" =
      Except.ok ("00:12" ++ "/" ++ String.mk "04".toList ++ "/" ++
        String.mk "02".toList ++ "/" ++ String.mk "2025".toList ++ "/" ++
        "+01:00") := by
  refine ⟨(build_time_string_spec "2025" "00:12" "+01:00").1 (by decide),
    (build_time_string_spec "2025-02-04" "00:12" "+01:00").2.1
      "2025".toList "02".toList "04".toList rfl (by decide) (by decide)⟩

/-- C9 counterexample: with two candidates that both fail with distinct
diagnostics, the error finally raised is the second failure alone — the
first failure is not retained in the final diagnostic. -/
theorem candidates_last_error_cex :
    fetch_vedastro_candidates failBothFetch ["u1", "u2"] =
      Except.error "error from u2" ∧
    ("error from u1" : String) ≠ "error from u2" :=
  ⟨rfl, by decide⟩

/-- C9 amended: candidates are tried strictly in order, returning the
first success without trying later candidates; if every candidate fails,
only the most recent failure is retained and the error raised is the last
candidate's failure alone. -/
theorem candidates_order_and_last_error {α : Type}
    (fetch : String → Except String α) (urls : List String) :
    (∀ us₁ u us₂, urls = us₁ ++ u :: us₂ →
      (∀ v ∈ us₁, ∃ e, fetch v = Except.error e) →
      (∃ d, fetch u = Except.ok d) →
      fetch_vedastro_candidates fetch urls = fetch u) ∧
    (∀ h : urls ≠ [],
      (∀ v ∈ urls, ∃ e, fetch v = Except.error e) →
      fetch_vedastro_candidates fetch urls = fetch (urls.getLast h)) := by
  constructor
  · intro us₁ u us₂ hurls hfail hok
    subst hurls
    exact fetchCandidatesAux_ok fetch us₁ none u us₂ hfail hok
  · intro h hfail
    exact fetchCandidatesAux_err fetch urls none h hfail

/-- Witness for candidates_order_and_last_error: the first success
short-circuits, and an all-fail list raises the last failure. -/
theorem candidates_order_witness :
    fetch_vedastro_candidates goodSecondFetch ["bad1", "good", "u3"] =
      Except.ok 7 ∧
    fetch_vedastro_candidates goodSecondFetch ["bad1", "bad2"] =
      Except.error "fail bad2" := by
  constructor
  · have h := (candidates_order_and_last_error goodSecondFetch
      ["bad1", "good", "u3"]).1 ["bad1"] "good" ["u3"] rfl
      (by
        intro v hv
        simp at hv
        subst hv
        exact ⟨"fail bad1", rfl⟩)
      ⟨7, rfl⟩
    rw [h]
    rfl
  · have h := (candidates_order_and_last_error goodSecondFetch
      ["bad1", "bad2"]).2 (by simp)
      (by
        intro v hv
        simp at hv
        rcases hv with rfl | rfl
        · exact ⟨"fail bad1", rfl⟩
        · exact ⟨"fail bad2", rfl⟩)
    rw [h]
    rfl

/-- C10: chunk_text does not terminate on valid arguments — with the
endpoint defaults chunk_size 1200 and overlap 150 (which pass every
entry guard) and the five-character text "hello", the loop is still
running after any number of iterations, because start is reset to
max(0, end − overlap) < len(text) on every pass once end reaches
len(text). -/
theorem chunk_text_diverges_on_defaults (fuel : ℕ) :
    chunk_text "hello" 1200 150 fuel = Except.ok none := by
  unfold chunk_text
  rw [if_neg (by norm_num), if_neg (by norm_num), if_neg (by norm_num)]
  rw [chunkLoop_hello fuel []]

end VedicCore
